import Mathlib

/-
  Shallow embedding of the payment/transfer orchestration core of the
  Lazorkit demo application.

  Sources embedded here:
  - src/hooks/usePayment.ts        (pay, reset, the PaymentStatus machine)
  - src/components/TransferForm.tsx (validateRecipient, validateAmount, handleSubmit)
  - src/lib/constants.ts            (getExplorerUrl)
  - src/unnamed/part_011            (createSolanaPayUrl)
  - src/lib/transaction.ts          (confirmTransaction)

  External collaborators (the wallet SDK connect / signAndSendTransaction,
  the web3 PublicKey parser, the RPC getSignatureStatus) are modelled as
  oracle parameters: Booleans, outcome values, or functions supplied to the
  embedded operations, exactly at the points where the source awaits or
  calls them.  JavaScript numbers are modelled as exact rationals plus
  explicit NaN and Infinity values.
-/

namespace Lazorkit

/-- A JavaScript Error value as observed by the catch handlers: only the
name and message fields are ever inspected by this codebase.  A missing
message is modelled as the empty string, which behaves identically in
every inspection the source performs. -/
structure JsError where
  name : String
  message : String
deriving DecidableEq, Repr

/-- Outcome of an awaited collaborator call: it either resolves with a
value or rejects with a JavaScript error. -/
inductive JsOutcome (α : Type) where
  | ok (a : α)
  | err (e : JsError)
deriving DecidableEq, Repr

/-- Contiguous-sublist test on character lists, the semantics of
JavaScript String.prototype.includes for the fixed search patterns used
by the source. -/
def sublistAt (pat : List Char) : List Char → Bool
  | [] => pat.isEmpty
  | c :: rest => pat.isPrefixOf (c :: rest) || sublistAt pat rest

/-- JavaScript s.includes(pat). -/
def strIncludes (s pat : String) : Bool :=
  sublistAt pat.toList s.toList

/-- EXPLORER_BASE_URL from src/lib/constants.ts. -/
def EXPLORER_BASE_URL : String := "https://solscan.io"

/-- CLUSTER from src/lib/constants.ts. -/
def CLUSTER : String := "devnet"

/-- getExplorerUrl from src/lib/constants.ts. -/
def getExplorerUrl (signature : String) : String :=
  EXPLORER_BASE_URL ++ "/tx/" ++ signature ++ "?cluster=" ++ CLUSTER

/-- PaymentStatus from src/hooks/usePayment.ts. -/
inductive PaymentStatus where
  | idle
  | connecting
  | processing
  | success
  | error
deriving DecidableEq, Repr

/-- PaymentCurrency from src/hooks/usePayment.ts. -/
inductive PaymentCurrency where
  | SOL
  | USDC
deriving DecidableEq, Repr

/-- PaymentResult from src/hooks/usePayment.ts.  Amounts are exact
rationals; the timestamp is the Date.now() value captured at
construction. -/
structure PaymentResult where
  signature : String
  explorerUrl : String
  amount : ℚ
  currency : PaymentCurrency
  reference : Option String
  timestamp : ℤ
deriving DecidableEq, Repr

/-- PaymentError from src/hooks/usePayment.ts. -/
structure PaymentError where
  code : String
  message : String
  recoverable : Bool
deriving DecidableEq, Repr

/-- The three useState cells of the usePayment hook. -/
structure PayState where
  status : PaymentStatus
  result : Option PaymentResult
  error : Option PaymentError
deriving DecidableEq, Repr

/-- The useState initializers of the hook: idle, no result, no error. -/
def initState : PayState :=
  { status := .idle, result := none, error := none }

/-- Behaviour of the external collaborators during one pay() call:
whether new PublicKey(merchantAddress) succeeds, the ambient isConnected
flag, how connect() resolves, whether smartWalletPubkey is non-null, how
signAndSendTransaction resolves, and the Date.now() clock. -/
structure PayEnv where
  merchantValid : Bool
  isConnected : Bool
  connectOutcome : JsOutcome Unit
  walletAvailable : Bool
  submitOutcome : JsOutcome String
  now : ℤ
deriving DecidableEq, Repr

/-- The arguments of pay(amount, currency, reference?). -/
structure PayArgs where
  amount : ℚ
  currency : PaymentCurrency
  reference : Option String
deriving DecidableEq, Repr

/-- Observable trace of one pay() call: the final state of the hook and
how often each collaborator and callback was invoked, plus the concrete
lamports value and feeToken option handed to the submitter. -/
structure PayTrace where
  state : PayState
  connectCalls : ℕ
  submitCalls : ℕ
  submittedLamports : Option ℤ
  submittedFeeToken : Option String
  onStartCalls : ℕ
  onSuccessCalls : ℕ
  onErrorCalls : ℕ
  onCancelCalls : ℕ
deriving DecidableEq, Repr

/-- Trace at the start of a pay() call, with the hook state as pay finds
it. -/
def initTrace (s0 : PayState) : PayTrace :=
  { state := s0, connectCalls := 0, submitCalls := 0,
    submittedLamports := none, submittedFeeToken := none,
    onStartCalls := 0, onSuccessCalls := 0, onErrorCalls := 0,
    onCancelCalls := 0 }

/-- The cancellation test at the top of the catch block of pay():
error.name equals UserCancelled or error.message includes the substring
cancel. -/
def isCancelError (e : JsError) : Bool :=
  e.name == "UserCancelled" || strIncludes e.message "cancel"

/-- The error-classification chain of the catch block of pay() in
src/hooks/usePayment.ts, run after the cancellation test has failed. -/
def classifyPayError (e : JsError) : PaymentError :=
  if strIncludes e.message "insufficient" then
    { code := "INSUFFICIENT_BALANCE",
      message := "Insufficient balance for this payment",
      recoverable := false }
  else if strIncludes e.message "paymaster" then
    { code := "PAYMASTER_ERROR",
      message := "Fee sponsorship unavailable. Try using SOL for fees.",
      recoverable := true }
  else if strIncludes e.message "network" || strIncludes e.message "fetch" then
    { code := "NETWORK_ERROR",
      message := "Network error. Please check your connection.",
      recoverable := true }
  else
    { code := "TRANSACTION_FAILED",
      message := if e.message == "" then "Payment failed" else e.message,
      recoverable := true }

/-- The catch block of pay(): a cancellation-flavoured error resets the
status to idle and fires onPaymentCancel; any other error is classified,
stored, sets the status to error and fires onPaymentError. -/
def payCatch (t : PayTrace) (e : JsError) : PayTrace :=
  if isCancelError e then
    { t with state := { t.state with status := .idle },
             onCancelCalls := t.onCancelCalls + 1 }
  else
    let pe := classifyPayError e
    { t with state := { t.state with status := .error, error := some pe },
             onErrorCalls := t.onErrorCalls + 1 }

/-- LAMPORTS_PER_SOL from the web3 library. -/
def LAMPORTS_PER_SOL : ℚ := 1000000000

/-- The body of the try block of pay() after the connect step: the
smartWalletPubkey null check, the transition to processing, instruction
building, and the awaited signAndSendTransaction call. -/
def payAfterConnect (env : PayEnv) (args : PayArgs) (t : PayTrace) : PayTrace :=
  if env.walletAvailable then
    let t1 := { t with state := { t.state with status := .processing, error := none },
                       onStartCalls := t.onStartCalls + 1 }
    let lamports : ℤ := Int.floor (args.amount * LAMPORTS_PER_SOL)
    let feeToken : Option String :=
      if args.currency = .USDC then some "USDC" else none
    let t2 := { t1 with submitCalls := t1.submitCalls + 1,
                        submittedLamports := some lamports,
                        submittedFeeToken := feeToken }
    match env.submitOutcome with
    | .ok signature =>
        let pr : PaymentResult :=
          { signature := signature,
            explorerUrl := getExplorerUrl signature,
            amount := args.amount,
            currency := args.currency,
            reference := args.reference,
            timestamp := env.now }
        { t2 with state := { t2.state with status := .success, result := some pr },
                  onSuccessCalls := t2.onSuccessCalls + 1 }
    | .err e => payCatch t2 e
  else
    payCatch t { name := "Error", message := "Wallet not available" }

/-- pay() from src/hooks/usePayment.ts, as a function from the
collaborator behaviour, the call arguments and the hook state at entry to
the observable trace of the call. -/
def pay (env : PayEnv) (args : PayArgs) (s0 : PayState) : PayTrace :=
  if args.amount ≤ 0 then
    let pe : PaymentError :=
      { code := "INVALID_AMOUNT", message := "Amount must be greater than 0",
        recoverable := true }
    { initTrace s0 with
      state := { s0 with status := .error, error := some pe },
      onErrorCalls := 1 }
  else if env.merchantValid then
    if env.isConnected then
      payAfterConnect env args (initTrace s0)
    else
      let t1 := { initTrace s0 with
                  state := { s0 with status := .connecting },
                  connectCalls := 1 }
      match env.connectOutcome with
      | .ok _ => payAfterConnect env args t1
      | .err e => payCatch t1 e
  else
    let pe : PaymentError :=
      { code := "INVALID_MERCHANT", message := "Invalid merchant address",
        recoverable := false }
    { initTrace s0 with
      state := { s0 with status := .error, error := some pe },
      onErrorCalls := 1 }

/-- reset() from src/hooks/usePayment.ts: sets status to idle and clears
result and error. -/
def reset (_s : PayState) : PayState :=
  { status := .idle, result := none, error := none }

/-- A JavaScript number as produced by parseFloat: NaN, a signed
Infinity, or a finite value modelled as an exact rational.  Exactness is
the one abstraction over IEEE doubles; every comparison the source makes
is against 0 or 1000, where the inputs of interest are represented
exactly. -/
inductive JsNum where
  | nan
  | inf (neg : Bool)
  | num (q : ℚ)
deriving DecidableEq, Repr

/-- The whitespace class skipped by parseFloat and removed by trim. -/
def isWhitespaceChar (c : Char) : Bool :=
  c = ' ' || c = '\t' || c = '\n' || c = '\r' || c = '\x0b' || c = '\x0c'

/-- Decimal digit test. -/
def isDigitChar (c : Char) : Bool :=
  '0' ≤ c && c ≤ '9'

/-- Numeric value of a decimal digit character. -/
def digitVal (c : Char) : ℕ :=
  c.toNat - '0'.toNat

/-- Value of a digit string read in base 10. -/
def digitsToNat (ds : List Char) : ℕ :=
  ds.foldl (fun acc c => 10 * acc + digitVal c) 0

/-- Exponent digits after the e marker, with optional sign; an empty
digit run means the exponent part fails to match and contributes
nothing. -/
def parseExponentTail (cs : List Char) : ℤ :=
  let signed : Bool × List Char :=
    match cs with
    | '+' :: rest => (false, rest)
    | '-' :: rest => (true, rest)
    | rest => (false, rest)
  let ds := signed.2.takeWhile isDigitChar
  if ds.isEmpty then 0
  else if signed.1 then -(digitsToNat ds : ℤ) else (digitsToNat ds : ℤ)

/-- Optional exponent part of a decimal literal. -/
def parseExponent (cs : List Char) : ℤ :=
  match cs with
  | c :: rest => if c = 'e' || c = 'E' then parseExponentTail rest else 0
  | [] => 0

/-- Scale a finite value by a signed power of ten. -/
def applyExponent (q : ℚ) (e : ℤ) : ℚ :=
  if 0 ≤ e then q * (10 : ℚ) ^ e.toNat else q / (10 : ℚ) ^ (-e).toNat

/-- The unsigned part of the parseFloat grammar: the Infinity literal, or
decimal digits with optional fraction and exponent; anything else is
NaN.  Trailing garbage is ignored, matching parseFloat. -/
def parseUnsignedDecimal (cs : List Char) (neg : Bool) : JsNum :=
  if "Infinity".toList.isPrefixOf cs then JsNum.inf neg
  else
    let intDigits := cs.takeWhile isDigitChar
    let rest1 := cs.dropWhile isDigitChar
    match rest1 with
    | '.' :: rest2 =>
        let fracDigits := rest2.takeWhile isDigitChar
        let rest3 := rest2.dropWhile isDigitChar
        if intDigits.isEmpty && fracDigits.isEmpty then JsNum.nan
        else
          let mant : ℚ :=
            (digitsToNat intDigits : ℚ) +
              (digitsToNat fracDigits : ℚ) / (10 : ℚ) ^ fracDigits.length
          JsNum.num (applyExponent (if neg then -mant else mant) (parseExponent rest3))
    | _ =>
        if intDigits.isEmpty then JsNum.nan
        else
          let mant : ℚ := (digitsToNat intDigits : ℚ)
          JsNum.num (applyExponent (if neg then -mant else mant) (parseExponent rest1))

/-- JavaScript parseFloat: skip leading whitespace, read an optional
sign, then the longest unsigned decimal literal or Infinity. -/
def parseFloat (s : String) : JsNum :=
  match s.toList.dropWhile isWhitespaceChar with
  | '+' :: rest => parseUnsignedDecimal rest false
  | '-' :: rest => parseUnsignedDecimal rest true
  | rest => parseUnsignedDecimal rest false

/-- JavaScript isNaN on a parseFloat result. -/
def JsNum.jsIsNaN : JsNum → Bool
  | .nan => true
  | .inf _ => false
  | .num _ => false

/-- The JavaScript comparison num is less-or-equal 0 (false on NaN). -/
def JsNum.leZero : JsNum → Bool
  | .nan => false
  | .inf neg => neg
  | .num q => q ≤ 0

/-- The JavaScript comparison num is greater than 1000 (false on NaN). -/
def JsNum.gtThousand : JsNum → Bool
  | .nan => false
  | .inf neg => !neg
  | .num q => 1000 < q

/-- JavaScript negation of value.trim() as a Bool: true when the string
is empty or whitespace-only. -/
def jsTrimIsEmpty (s : String) : Bool :=
  s.toList.all isWhitespaceChar

/-- validateAmount from src/components/TransferForm.tsx: required field,
then parseFloat, then the num less-or-equal 0 or NaN check, then the
1000 SOL ceiling. -/
def validateAmount (value : String) : Option String :=
  if jsTrimIsEmpty value then some "Amount is required"
  else
    let num := parseFloat value
    if num.jsIsNaN || num.leZero then some "Amount must be greater than 0"
    else if num.gtThousand then some "Amount too large (max 1000 SOL for safety)"
    else none

/-- validateRecipient from src/components/TransferForm.tsx; the external
PublicKey constructor is modelled as an oracle deciding whether parsing
succeeds. -/
def validateRecipient (isValidPubkey : String → Bool) (value : String) : Option String :=
  if jsTrimIsEmpty value then some "Recipient address is required"
  else if isValidPubkey value then none
  else some "Invalid Solana address"

/-- The TransactionResult status in src/components/TransferForm.tsx. -/
inductive FormStatus where
  | idle
  | loading
  | success
  | error
deriving DecidableEq, Repr

/-- TransactionResult from src/components/TransferForm.tsx. -/
structure FormResult where
  status : FormStatus
  signature : Option String
  error : Option String
deriving DecidableEq, Repr

/-- Collaborator behaviour for one handleSubmit call of the transfer
form. -/
structure FormEnv where
  isValidPubkey : String → Bool
  walletAvailable : Bool
  submitOutcome : JsOutcome String

/-- Observable trace of one handleSubmit call: the field errors set, the
final TransactionResult cell, and how often signAndSendTransaction was
invoked. -/
structure FormTrace where
  recipientFieldError : Option String
  amountFieldError : Option String
  result : FormResult
  submitCalls : ℕ
deriving DecidableEq, Repr

/-- handleSubmit from src/components/TransferForm.tsx, from a clean idle
form: validate both fields, bail out recording the field errors on
failure, check the wallet, then submit and interpret the outcome with
the cancellation test and the insufficient/paymaster message mapping. -/
def handleSubmit (env : FormEnv) (recipient amount : String)
    (feeToken : PaymentCurrency) : FormTrace :=
  let recipientError := validateRecipient env.isValidPubkey recipient
  let amountError := validateAmount amount
  if recipientError.isSome || amountError.isSome then
    { recipientFieldError := recipientError, amountFieldError := amountError,
      result := { status := .idle, signature := none, error := none },
      submitCalls := 0 }
  else if env.walletAvailable then
    let _feeTokenOpt : Option String :=
      if feeToken = .USDC then some "USDC" else none
    match env.submitOutcome with
    | .ok signature =>
        { recipientFieldError := none, amountFieldError := none,
          result := { status := .success, signature := some signature, error := none },
          submitCalls := 1 }
    | .err e =>
        if isCancelError e then
          { recipientFieldError := none, amountFieldError := none,
            result := { status := .idle, signature := none, error := none },
            submitCalls := 1 }
        else
          let msg :=
            if strIncludes e.message "insufficient" then
              "Insufficient balance for this transfer"
            else if strIncludes e.message "paymaster" then
              "Paymaster error - try using SOL for fees instead"
            else if e.message == "" then "Transaction failed"
            else e.message
          { recipientFieldError := none, amountFieldError := none,
            result := { status := .error, signature := none, error := some msg },
            submitCalls := 1 }
  else
    { recipientFieldError := none, amountFieldError := none,
      result := { status := .error, signature := none, error := some "Wallet not connected" },
      submitCalls := 0 }

/-- USDC_MINT_DEVNET from src/unnamed/part_011. -/
def USDC_MINT_DEVNET : String := "4zMMC9srt5Ri5X14GAgXhaHii3GnPAEERYPJgZJDncDU"

/-- SolanaPayParams from src/unnamed/part_011.  The optional currency
defaults to SOL inside createSolanaPayUrl, exactly like the source
destructuring default. -/
structure SolanaPayParams where
  recipient : String
  amount : Option ℚ
  currency : Option PaymentCurrency
  label : Option String
  message : Option String
  memo : Option String
  reference : Option String
deriving DecidableEq, Repr

/-- The URL value built by createSolanaPayUrl: the solana recipient path
and the query parameters in insertion order.  Each key is set at most
once, so searchParams.set is a plain append. -/
structure SolanaPayUrl where
  recipient : String
  params : List (String × String)
deriving DecidableEq, Repr

/-- Whether a query-parameter list carries a given key. -/
def hasKey (l : List (String × String)) (k : String) : Bool :=
  l.any (fun kv => kv.fst == k)

/-- Whether the built URL carries a given query parameter. -/
def SolanaPayUrl.hasParam (u : SolanaPayUrl) (k : String) : Bool :=
  hasKey u.params k

/-- JavaScript truthiness of an optional string: undefined and the empty
string are falsy. -/
def isTruthyStr : Option String → Bool
  | none => false
  | some s => !(s == "")

/-- Append a query parameter when its guard holds. -/
def appendIf (b : Bool) (kv : String × String) (l : List (String × String)) :
    List (String × String) :=
  if b then l ++ [kv] else l

/-- The amount.toString() of the source; decimal formatting of the
rational is abstracted, only the presence of the parameter matters to
the specification. -/
def ratToString (q : ℚ) : String := toString q

/-- The query parameters assembled by createSolanaPayUrl in source
order: amount when defined and strictly positive, spl-token for USDC,
then label, message, memo and reference when truthy. -/
def buildParams (p : SolanaPayParams) : List (String × String) :=
  let currency := p.currency.getD .SOL
  let ps0 : List (String × String) :=
    match p.amount with
    | some a => if 0 < a then [("amount", ratToString a)] else []
    | none => []
  let ps1 := appendIf (currency = .USDC) ("spl-token", USDC_MINT_DEVNET) ps0
  let ps2 := appendIf (isTruthyStr p.label) ("label", p.label.getD "") ps1
  let ps3 := appendIf (isTruthyStr p.message) ("message", p.message.getD "") ps2
  let ps4 := appendIf (isTruthyStr p.memo) ("memo", p.memo.getD "") ps3
  appendIf (isTruthyStr p.reference) ("reference", p.reference.getD "") ps4

/-- createSolanaPayUrl from src/unnamed/part_011.  The external
PublicKey constructor is an oracle; a failed parse throws the
Invalid-recipient error, otherwise the URL is assembled from the
recipient and the query parameters of buildParams. -/
def createSolanaPayUrl (isValidPubkey : String → Bool) (p : SolanaPayParams) :
    Except String SolanaPayUrl :=
  if isValidPubkey p.recipient then
    .ok { recipient := p.recipient, params := buildParams p }
  else
    .error "Invalid recipient address"

/-- The confirmationStatus values of the RPC signature status. -/
inductive ConfirmationStatus where
  | processed
  | confirmed
  | finalized
deriving DecidableEq, Repr

/-- The status.value object returned by getSignatureStatus; err holds
the JSON.stringify rendering of the transaction error when one is
present. -/
structure SignatureStatusValue where
  err : Option String
  confirmationStatus : Option ConfirmationStatus
  confirmations : Option ℤ
  slot : ℤ
deriving DecidableEq, Repr

/-- Behaviour of one getSignatureStatus poll: the call either throws or
resolves with a possibly-null value. -/
inductive PollOutcome where
  | throws
  | ret (value : Option SignatureStatusValue)
deriving DecidableEq, Repr

/-- ConfirmTransactionResult from src/lib/transaction.ts. -/
structure ConfirmTransactionResult where
  confirmed : Bool
  confirmations : Option ℤ
  error : Option String
  slot : Option ℤ
deriving DecidableEq, Repr

/-- The early-return decision of one loop iteration of
confirmTransaction on a non-null status value: a present transaction
error returns a failure, a confirmed or finalized status returns
success, anything else keeps polling. -/
def confirmStep (v : Option SignatureStatusValue) : Option ConfirmTransactionResult :=
  match v with
  | none => none
  | some sv =>
    match sv.err with
    | some e =>
        some { confirmed := false, confirmations := none,
               error := some ("Transaction failed: " ++ e), slot := some sv.slot }
    | none =>
      match sv.confirmationStatus with
      | some .confirmed =>
          some { confirmed := true, confirmations := sv.confirmations,
                 error := none, slot := some sv.slot }
      | some .finalized =>
          some { confirmed := true, confirmations := sv.confirmations,
                 error := none, slot := some sv.slot }
      | _ => none

/-- Effect of one poll: a thrown RPC call is caught and never returns
early, a resolved one returns early exactly when confirmStep says so. -/
def pollStep : PollOutcome → Option ConfirmTransactionResult
  | .throws => none
  | .ret v => confirmStep v

/-- The result returned when the while condition expires. -/
def timeoutResult (timeout : ℕ) : ConfirmTransactionResult :=
  { confirmed := false, confirmations := none,
    error := some ("Transaction confirmation timeout after " ++ toString timeout ++ "ms"),
    slot := none }

/-- The polling while-loop of confirmTransaction.  Iteration i runs at
elapsed time i * pollInterval: the RPC call is treated as instantaneous
and each sleep as exactly pollInterval milliseconds, which is the only
timing abstraction.  The fuel argument bounds the recursion; for a
positive pollInterval it never expires before the while condition does,
and when it expires the returned value is the timeout return either
way. -/
def confirmLoop (polls : ℕ → PollOutcome) (timeout pollInterval : ℕ) :
    ℕ → ℕ → ConfirmTransactionResult
  | _, 0 => timeoutResult timeout
  | i, fuel + 1 =>
    if i * pollInterval < timeout then
      match pollStep (polls i) with
      | some r => r
      | none => confirmLoop polls timeout pollInterval (i + 1) fuel
    else timeoutResult timeout

/-- confirmTransaction from src/lib/transaction.ts, over the abstract
timing model of confirmLoop. -/
def confirmTransaction (polls : ℕ → PollOutcome) (timeout pollInterval : ℕ) :
    ConfirmTransactionResult :=
  confirmLoop polls timeout pollInterval 0 (timeout / pollInterval + 1)

/-- A poll behaviour whose every getSignatureStatus call throws. -/
def throwingPolls : ℕ → PollOutcome := fun _ => PollOutcome.throws

/-- A status value that is immediately confirmed without error. -/
def confirmedStatusValue : SignatureStatusValue :=
  { err := none, confirmationStatus := some ConfirmationStatus.confirmed,
    confirmations := some 1, slot := 5 }

/-- A poll behaviour that reports the confirmed status on every call. -/
def confirmingPolls : ℕ → PollOutcome := fun _ => PollOutcome.ret (some confirmedStatusValue)

/-
  Helper lemmas shared by the claim theorems.
-/

/-- Dropping a predicate from a list all of whose members satisfy it
gives the empty list. -/
lemma dropWhile_of_all {p : Char → Bool} :
    ∀ l : List Char, l.all p = true → l.dropWhile p = [] := by
  intro l h
  induction l with
  | nil => rfl
  | cons c rest ih =>
      simp only [List.all_cons, Bool.and_eq_true] at h
      simp [List.dropWhile, h.1, ih h.2]

/-- A blank string (empty or whitespace-only) parses to NaN. -/
lemma parseFloat_of_blank (s : String) (h : jsTrimIsEmpty s = true) :
    parseFloat s = JsNum.nan := by
  unfold parseFloat
  rw [dropWhile_of_all s.toList h]
  rfl

/-- A string whose parseFloat is not NaN is not blank. -/
lemma not_blank_of_parseFloat_ne_nan (s : String) (h : parseFloat s ≠ JsNum.nan) :
    jsTrimIsEmpty s = false := by
  cases hb : jsTrimIsEmpty s with
  | false => rfl
  | true => exact absurd (parseFloat_of_blank s hb) h

/-- C8: from every state of the orchestrator, including the terminal
Success and Error states, reset() unconditionally yields the idle state
with result and error cleared, and changes nothing else of the hook
state. -/
theorem reset_is_total (s : PayState) :
    reset s = { status := .idle, result := none, error := none } := rfl

/-- C3: whenever the amount or the merchant-address validation of pay()
fails, the call ends directly in the error status carrying the
corresponding error code, and neither the wallet-connect collaborator
nor the sign-and-send submitter is invoked. -/
theorem pay_validation_fail_fast (env : PayEnv) (args : PayArgs) (s0 : PayState)
    (h : args.amount ≤ 0 ∨ env.merchantValid = false) :
    (pay env args s0).state.status = .error ∧
    (pay env args s0).connectCalls = 0 ∧
    (pay env args s0).submitCalls = 0 ∧
    (pay env args s0).state.error =
      some (if args.amount ≤ 0 then
              { code := "INVALID_AMOUNT", message := "Amount must be greater than 0",
                recoverable := true }
            else
              { code := "INVALID_MERCHANT", message := "Invalid merchant address",
                recoverable := false }) := by
  by_cases ha : args.amount ≤ 0
  · simp [pay, ha, initTrace]
  · rcases h with h | h
    · exact absurd h ha
    · simp [pay, ha, h, initTrace]

/-- Witness for C3 at Scenario-B-like data: amount -1 with a valid
merchant ends in Error with code INVALID_AMOUNT and zero collaborator
calls. -/
theorem pay_validation_fail_fast_witness :
    (pay { merchantValid := true, isConnected := true, connectOutcome := .ok (),
           walletAvailable := true, submitOutcome := .ok "sig", now := 0 }
         { amount := -1, currency := .SOL, reference := none } initState).state.status
        = PaymentStatus.error ∧
    (pay { merchantValid := true, isConnected := true, connectOutcome := .ok (),
           walletAvailable := true, submitOutcome := .ok "sig", now := 0 }
         { amount := -1, currency := .SOL, reference := none } initState).connectCalls = 0 ∧
    (pay { merchantValid := true, isConnected := true, connectOutcome := .ok (),
           walletAvailable := true, submitOutcome := .ok "sig", now := 0 }
         { amount := -1, currency := .SOL, reference := none } initState).submitCalls = 0 ∧
    (pay { merchantValid := true, isConnected := true, connectOutcome := .ok (),
           walletAvailable := true, submitOutcome := .ok "sig", now := 0 }
         { amount := -1, currency := .SOL, reference := none } initState).state.error
        = some { code := "INVALID_AMOUNT", message := "Amount must be greater than 0",
                 recoverable := true } := by
  have h := pay_validation_fail_fast
    { merchantValid := true, isConnected := true, connectOutcome := .ok (),
      walletAvailable := true, submitOutcome := .ok "sig", now := 0 }
    { amount := -1, currency := .SOL, reference := none } initState
    (Or.inl (by norm_num))
  refine ⟨h.1, h.2.1, h.2.2.1, ?_⟩
  have h4 := h.2.2.2
  rwa [if_pos (by norm_num : ((-1 : ℚ)) ≤ 0)] at h4

/-- C5: a cancellation-flavoured rejection of the wallet-connect
collaborator (name UserCancelled or a message containing cancel) leaves
pay() in the idle state with no error recorded: the error cell stays
null, the error callback never fires, the cancel callback fires once,
and the submitter is never invoked. -/
theorem pay_connect_cancel_is_silent (env : PayEnv) (args : PayArgs) (e : JsError)
    (hamt : 0 < args.amount) (hm : env.merchantValid = true)
    (hc : env.isConnected = false) (ho : env.connectOutcome = .err e)
    (hcan : isCancelError e = true) :
    (pay env args initState).state.status = .idle ∧
    (pay env args initState).state.error = none ∧
    (pay env args initState).state.result = none ∧
    (pay env args initState).onErrorCalls = 0 ∧
    (pay env args initState).onCancelCalls = 1 ∧
    (pay env args initState).submitCalls = 0 := by
  simp [pay, not_le.mpr hamt, hm, hc, ho, payCatch, hcan, initTrace, initState]

/-- Witness for C5 at Scenario F: connect() rejects with name
UserCancelled, pay(1, SOL) ends idle with no error. -/
theorem pay_connect_cancel_is_silent_witness :
    (pay { merchantValid := true, isConnected := false,
           connectOutcome := .err { name := "UserCancelled", message := "" },
           walletAvailable := true, submitOutcome := .ok "sig", now := 0 }
         { amount := 1, currency := .SOL, reference := none } initState).state.status
        = PaymentStatus.idle ∧
    (pay { merchantValid := true, isConnected := false,
           connectOutcome := .err { name := "UserCancelled", message := "" },
           walletAvailable := true, submitOutcome := .ok "sig", now := 0 }
         { amount := 1, currency := .SOL, reference := none } initState).state.error
        = none ∧
    (pay { merchantValid := true, isConnected := false,
           connectOutcome := .err { name := "UserCancelled", message := "" },
           walletAvailable := true, submitOutcome := .ok "sig", now := 0 }
         { amount := 1, currency := .SOL, reference := none } initState).onErrorCalls = 0 := by
  have h := pay_connect_cancel_is_silent
    { merchantValid := true, isConnected := false,
      connectOutcome := .err { name := "UserCancelled", message := "" },
      walletAvailable := true, submitOutcome := .ok "sig", now := 0 }
    { amount := 1, currency := .SOL, reference := none }
    { name := "UserCancelled", message := "" }
    (by norm_num) rfl rfl rfl (by decide)
  exact ⟨h.1, h.2.1, h.2.2.2.1⟩

/-- C6: for a valid request, when connect (if needed) and the submitter
both resolve, pay() ends in Success and the recorded PaymentResult
carries exactly the resolved signature, the explorer URL built from that
signature, and the amount, currency and reference of the request,
stamped with the ambient clock. -/
theorem pay_success_round_trip (env : PayEnv) (args : PayArgs) (s0 : PayState)
    (sig : String)
    (hamt : 0 < args.amount) (hm : env.merchantValid = true)
    (hconn : env.isConnected = true ∨ env.connectOutcome = .ok ())
    (hw : env.walletAvailable = true) (hs : env.submitOutcome = .ok sig) :
    (pay env args s0).state.status = .success ∧
    (pay env args s0).state.result =
      some { signature := sig, explorerUrl := getExplorerUrl sig,
             amount := args.amount, currency := args.currency,
             reference := args.reference, timestamp := env.now } ∧
    (pay env args s0).submitCalls = 1 ∧
    (pay env args s0).onSuccessCalls = 1 := by
  by_cases hic : env.isConnected
  · simp [pay, not_le.mpr hamt, hm, hic, payAfterConnect, hw, hs, initTrace]
  · rcases hconn with hconn | hconn
    · exact absurd hconn hic
    · simp [pay, not_le.mpr hamt, hm, hic, hconn, payAfterConnect, hw, hs, initTrace]

/-- Witness for C6 at Scenario D: wallet not connected, connect
resolves, submit resolves with sig123; success with exactly that
signature and its explorer URL. -/
theorem pay_success_round_trip_witness :
    (pay { merchantValid := true, isConnected := false, connectOutcome := .ok (),
           walletAvailable := true, submitOutcome := .ok "sig123", now := 1700000000000 }
         { amount := 1/20, currency := .USDC, reference := some "order-1" } initState).state.status
        = PaymentStatus.success ∧
    (pay { merchantValid := true, isConnected := false, connectOutcome := .ok (),
           walletAvailable := true, submitOutcome := .ok "sig123", now := 1700000000000 }
         { amount := 1/20, currency := .USDC, reference := some "order-1" } initState).state.result
        = some { signature := "sig123",
                 explorerUrl := "https://solscan.io/tx/sig123?cluster=devnet",
                 amount := 1/20, currency := .USDC, reference := some "order-1",
                 timestamp := 1700000000000 } := by
  have h := pay_success_round_trip
    { merchantValid := true, isConnected := false, connectOutcome := .ok (),
      walletAvailable := true, submitOutcome := .ok "sig123", now := 1700000000000 }
    { amount := 1/20, currency := .USDC, reference := some "order-1" } initState "sig123"
    (by norm_num) rfl (Or.inr rfl) rfl rfl
  refine ⟨h.1, ?_⟩
  have h2 := h.2.1
  rwa [show getExplorerUrl "sig123" = "https://solscan.io/tx/sig123?cluster=devnet" from rfl] at h2

/-- C2 counterexample: a wallet-connect rejection that is not
cancellation-flavoured (name ConnectionError, message timeout) does not
return silently to Idle; pay() ends in the Error state with a recorded
PaymentError, refuting the claim that every connect failure is
silent. -/
theorem pay_connect_failure_not_always_silent :
    (pay { merchantValid := true, isConnected := false,
           connectOutcome := .err { name := "ConnectionError", message := "timeout" },
           walletAvailable := true, submitOutcome := .ok "sig", now := 0 }
         { amount := 1, currency := .SOL, reference := none } initState).state.status
        = PaymentStatus.error ∧
    (pay { merchantValid := true, isConnected := false,
           connectOutcome := .err { name := "ConnectionError", message := "timeout" },
           walletAvailable := true, submitOutcome := .ok "sig", now := 0 }
         { amount := 1, currency := .SOL, reference := none } initState).state.error
        = some { code := "TRANSACTION_FAILED", message := "timeout", recoverable := true } ∧
    (pay { merchantValid := true, isConnected := false,
           connectOutcome := .err { name := "ConnectionError", message := "timeout" },
           walletAvailable := true, submitOutcome := .ok "sig", now := 0 }
         { amount := 1, currency := .SOL, reference := none } initState).onErrorCalls = 1 := by
  refine ⟨?_, ?_, ?_⟩ <;>
    simp +decide [pay, payAfterConnect, payCatch, initTrace, initState,
      classifyPayError, isCancelError, strIncludes, sublistAt]

/-- C2 amended: during the connect step of pay(), only a
cancellation-flavoured rejection (name UserCancelled or a message
containing cancel) returns silently to Idle with no PaymentError
recorded; any other connect rejection is classified and ends in the
Error state. -/
theorem pay_connect_failure_dichotomy (env : PayEnv) (args : PayArgs) (s0 : PayState)
    (e : JsError)
    (hamt : 0 < args.amount) (hm : env.merchantValid = true)
    (hc : env.isConnected = false) (ho : env.connectOutcome = .err e) :
    (isCancelError e = true →
        (pay env args s0).state.status = .idle ∧
        (pay env args s0).state.error = s0.error ∧
        (pay env args s0).onErrorCalls = 0 ∧
        (pay env args s0).onCancelCalls = 1) ∧
    (isCancelError e = false →
        (pay env args s0).state.status = .error ∧
        (pay env args s0).state.error = some (classifyPayError e) ∧
        (pay env args s0).onErrorCalls = 1 ∧
        (pay env args s0).submitCalls = 0) := by
  constructor <;> intro hcan <;>
    simp [pay, not_le.mpr hamt, hm, hc, ho, payCatch, hcan, initTrace]

/-- Witness for the C2 amended theorem: the cancel-flavoured rejection
UserCancelled ends idle and silent, while the ConnectionError rejection
ends in Error with the classified default code. -/
theorem pay_connect_failure_dichotomy_witness :
    (pay { merchantValid := true, isConnected := false,
           connectOutcome := .err { name := "UserCancelled", message := "" },
           walletAvailable := true, submitOutcome := .ok "sig", now := 0 }
         { amount := 2, currency := .USDC, reference := none } initState).state.status
        = PaymentStatus.idle ∧
    (pay { merchantValid := true, isConnected := false,
           connectOutcome := .err { name := "ConnectionError", message := "rpc down" },
           walletAvailable := true, submitOutcome := .ok "sig", now := 0 }
         { amount := 2, currency := .USDC, reference := none } initState).state.status
        = PaymentStatus.error := by
  have h1 := (pay_connect_failure_dichotomy
    { merchantValid := true, isConnected := false,
      connectOutcome := .err { name := "UserCancelled", message := "" },
      walletAvailable := true, submitOutcome := .ok "sig", now := 0 }
    { amount := 2, currency := .USDC, reference := none } initState
    { name := "UserCancelled", message := "" }
    (by norm_num) rfl rfl rfl).1 (by decide)
  have h2 := (pay_connect_failure_dichotomy
    { merchantValid := true, isConnected := false,
      connectOutcome := .err { name := "ConnectionError", message := "rpc down" },
      walletAvailable := true, submitOutcome := .ok "sig", now := 0 }
    { amount := 2, currency := .USDC, reference := none } initState
    { name := "ConnectionError", message := "rpc down" }
    (by norm_num) rfl rfl rfl).2 (by decide)
  exact ⟨h1.1, h2.1⟩

/-- C1 counterexample: pay() does not enforce the 1000-unit safety
ceiling.  With amount 1500, a valid merchant and a connected wallet the
call reaches the submitter and ends in Success, instead of failing with
an amount-too-large error before any network interaction. -/
theorem pay_ceiling_not_enforced :
    (pay { merchantValid := true, isConnected := true, connectOutcome := .ok (),
           walletAvailable := true, submitOutcome := .ok "sig", now := 0 }
         { amount := 1500, currency := .SOL, reference := none } initState).state.status
        = PaymentStatus.success ∧
    (pay { merchantValid := true, isConnected := true, connectOutcome := .ok (),
           walletAvailable := true, submitOutcome := .ok "sig", now := 0 }
         { amount := 1500, currency := .SOL, reference := none } initState).submitCalls = 1 ∧
    (pay { merchantValid := true, isConnected := true, connectOutcome := .ok (),
           walletAvailable := true, submitOutcome := .ok "sig", now := 0 }
         { amount := 1500, currency := .SOL, reference := none } initState).state.error
        = none := by
  refine ⟨?_, ?_, ?_⟩ <;>
    simp +decide [pay, payAfterConnect, payCatch, initTrace, initState]

/-- C1 amended: pay() itself enforces only the positivity half of the
invariant before any network interaction, while the 1000-unit ceiling
is enforced by the transfer-form layer: a non-positive amount makes
pay() fail fast with zero collaborator calls, and an amount string
parsing above 1000 makes handleSubmit record the amount-too-large field
error and return with zero submitter calls. -/
theorem amount_guards_are_split (env : PayEnv) (args : PayArgs) (s0 : PayState)
    (fenv : FormEnv) (recipient amountStr : String) (feeToken : PaymentCurrency)
    (q : ℚ) :
    (args.amount ≤ 0 →
        (pay env args s0).state.status = .error ∧
        (pay env args s0).state.error =
          some { code := "INVALID_AMOUNT", message := "Amount must be greater than 0",
                 recoverable := true } ∧
        (pay env args s0).connectCalls = 0 ∧
        (pay env args s0).submitCalls = 0) ∧
    (parseFloat amountStr = .num q → 1000 < q →
        (handleSubmit fenv recipient amountStr feeToken).submitCalls = 0 ∧
        (handleSubmit fenv recipient amountStr feeToken).amountFieldError =
          some "Amount too large (max 1000 SOL for safety)" ∧
        (handleSubmit fenv recipient amountStr feeToken).result.status = .idle) := by
  constructor
  · intro ha
    simp [pay, ha, initTrace]
  · intro hpf hq
    have hblank : jsTrimIsEmpty amountStr = false :=
      not_blank_of_parseFloat_ne_nan amountStr (by simp [hpf])
    have hval : validateAmount amountStr = some "Amount too large (max 1000 SOL for safety)" := by
      simp [validateAmount, hblank, hpf, JsNum.jsIsNaN, JsNum.leZero, JsNum.gtThousand,
        not_le.mpr (lt_trans (by norm_num : (0:ℚ) < 1000) hq), hq]
    simp [handleSubmit, hval]

/-- Witness for the C1 amended theorem: pay with amount -1 fails fast,
and the form rejects the string 1500 as too large with zero submitter
calls. -/
theorem amount_guards_are_split_witness :
    (pay { merchantValid := true, isConnected := true, connectOutcome := .ok (),
           walletAvailable := true, submitOutcome := .ok "sig", now := 0 }
         { amount := -1, currency := .SOL, reference := none } initState).submitCalls = 0 ∧
    (handleSubmit { isValidPubkey := fun _ => true, walletAvailable := true,
                    submitOutcome := .ok "sig" }
        "9xQeWvG816bUx9EPjHmaT23yvVM2ZWbrrpZb9PusVFin" "1500" PaymentCurrency.SOL).submitCalls
        = 0 ∧
    (handleSubmit { isValidPubkey := fun _ => true, walletAvailable := true,
                    submitOutcome := .ok "sig" }
        "9xQeWvG816bUx9EPjHmaT23yvVM2ZWbrrpZb9PusVFin" "1500" PaymentCurrency.SOL).amountFieldError
        = some "Amount too large (max 1000 SOL for safety)" := by
  have h := amount_guards_are_split
    { merchantValid := true, isConnected := true, connectOutcome := .ok (),
      walletAvailable := true, submitOutcome := .ok "sig", now := 0 }
    { amount := -1, currency := .SOL, reference := none } initState
    { isValidPubkey := fun _ => true, walletAvailable := true, submitOutcome := .ok "sig" }
    "9xQeWvG816bUx9EPjHmaT23yvVM2ZWbrrpZb9PusVFin" "1500" PaymentCurrency.SOL 1500
  have h1 := h.1 (by norm_num)
  have h2 := h.2 (by simp +decide [parseFloat, parseUnsignedDecimal, applyExponent,
    parseExponent, parseExponentTail, digitsToNat, digitVal]) (by norm_num)
  exact ⟨h1.2.2.2, h2.1, h2.2.1⟩

/-- For a valid request that reaches the submitter, a non-cancellation
submit rejection ends in Error with exactly the classified
PaymentError. -/
lemma pay_submit_err_state (env : PayEnv) (args : PayArgs) (s0 : PayState) (e : JsError)
    (hamt : 0 < args.amount) (hm : env.merchantValid = true)
    (hconn : env.isConnected = true ∨ env.connectOutcome = .ok ())
    (hw : env.walletAvailable = true) (hs : env.submitOutcome = .err e)
    (hnc : isCancelError e = false) :
    (pay env args s0).state.status = .error ∧
    (pay env args s0).state.error = some (classifyPayError e) ∧
    (pay env args s0).onErrorCalls = 1 := by
  by_cases hic : env.isConnected
  · simp [pay, not_le.mpr hamt, hm, hic, payAfterConnect, hw, hs, payCatch, hnc, initTrace]
  · rcases hconn with hconn | hconn
    · exact absurd hconn hic
    · simp [pay, not_le.mpr hamt, hm, hic, hconn, payAfterConnect, hw, hs, payCatch, hnc,
        initTrace]

/-- C4 counterexample: a submission rejection whose message contains
cancel falls under the fourth fixture shape of the claim (any other
message), yet pay() does not end in Error with the default
submission-failed code: the cancellation test of the shared catch block
fires first and the call ends silently in Idle. -/
theorem pay_submit_cancel_message_not_classified :
    (pay { merchantValid := true, isConnected := true, connectOutcome := .ok (),
           walletAvailable := true,
           submitOutcome := .err { name := "Error", message := "user cancelled the request" },
           now := 0 }
         { amount := 1, currency := .SOL, reference := none } initState).state.status
        = PaymentStatus.idle ∧
    (pay { merchantValid := true, isConnected := true, connectOutcome := .ok (),
           walletAvailable := true,
           submitOutcome := .err { name := "Error", message := "user cancelled the request" },
           now := 0 }
         { amount := 1, currency := .SOL, reference := none } initState).state.error
        = none ∧
    (pay { merchantValid := true, isConnected := true, connectOutcome := .ok (),
           walletAvailable := true,
           submitOutcome := .err { name := "Error", message := "user cancelled the request" },
           now := 0 }
         { amount := 1, currency := .SOL, reference := none } initState).onErrorCalls = 0 := by
  refine ⟨?_, ?_, ?_⟩ <;>
    simp +decide [pay, payAfterConnect, payCatch, initTrace, initState,
      isCancelError, strIncludes, sublistAt]

/-- C4 amended: for every submission rejection that is not
cancellation-flavoured (name UserCancelled or message containing
cancel), pay() ends in Error with exactly the mapped code and its fixed
recoverable default, following the source order of the chain:
insufficient maps to INSUFFICIENT_BALANCE not recoverable, else
paymaster maps to PAYMASTER_ERROR recoverable, else network or fetch
maps to NETWORK_ERROR recoverable, else the default TRANSACTION_FAILED
recoverable bucket; a cancellation-flavoured submission rejection
instead ends silently in Idle. -/
theorem pay_submit_error_classification (env : PayEnv) (args : PayArgs) (s0 : PayState)
    (e : JsError)
    (hamt : 0 < args.amount) (hm : env.merchantValid = true)
    (hconn : env.isConnected = true ∨ env.connectOutcome = .ok ())
    (hw : env.walletAvailable = true) (hs : env.submitOutcome = .err e) :
    (isCancelError e = true →
        (pay env args s0).state.status = .idle ∧
        (pay env args s0).onErrorCalls = 0) ∧
    (isCancelError e = false →
      (pay env args s0).state.status = .error ∧
      (strIncludes e.message "insufficient" = true →
          (pay env args s0).state.error =
            some { code := "INSUFFICIENT_BALANCE",
                   message := "Insufficient balance for this payment",
                   recoverable := false }) ∧
      (strIncludes e.message "insufficient" = false →
       strIncludes e.message "paymaster" = true →
          (pay env args s0).state.error =
            some { code := "PAYMASTER_ERROR",
                   message := "Fee sponsorship unavailable. Try using SOL for fees.",
                   recoverable := true }) ∧
      (strIncludes e.message "insufficient" = false →
       strIncludes e.message "paymaster" = false →
       (strIncludes e.message "network" = true ∨ strIncludes e.message "fetch" = true) →
          (pay env args s0).state.error =
            some { code := "NETWORK_ERROR",
                   message := "Network error. Please check your connection.",
                   recoverable := true }) ∧
      (strIncludes e.message "insufficient" = false →
       strIncludes e.message "paymaster" = false →
       strIncludes e.message "network" = false →
       strIncludes e.message "fetch" = false →
          (pay env args s0).state.error =
            some { code := "TRANSACTION_FAILED",
                   message := if e.message == "" then "Payment failed" else e.message,
                   recoverable := true })) := by
  constructor
  · intro hcan
    by_cases hic : env.isConnected
    · simp [pay, not_le.mpr hamt, hm, hic, payAfterConnect, hw, hs, payCatch, hcan, initTrace]
    · rcases hconn with hconn | hconn
      · exact absurd hconn hic
      · simp [pay, not_le.mpr hamt, hm, hic, hconn, payAfterConnect, hw, hs, payCatch, hcan,
          initTrace]
  · intro hnc
    obtain ⟨hst, herr, -⟩ := pay_submit_err_state env args s0 e hamt hm hconn hw hs hnc
    refine ⟨hst, ?_, ?_, ?_, ?_⟩
    · intro h1
      rw [herr]
      simp [classifyPayError, h1]
    · intro h1 h2
      rw [herr]
      simp [classifyPayError, h1, h2]
    · intro h1 h2 h3
      rw [herr]
      rcases h3 with h3 | h3 <;> simp [classifyPayError, h1, h2, h3]
    · intro h1 h2 h3 h4
      rw [herr]
      simp [classifyPayError, h1, h2, h3, h4]

/-- Witness for the C4 amended theorem at Scenario E: a submit rejection
whose message contains insufficient ends in Error with
INSUFFICIENT_BALANCE and recoverable false. -/
theorem pay_submit_error_classification_witness :
    (pay { merchantValid := true, isConnected := true, connectOutcome := .ok (),
           walletAvailable := true,
           submitOutcome := .err { name := "Error", message := "insufficient funds for rent" },
           now := 0 }
         { amount := 1, currency := .SOL, reference := none } initState).state.status
        = PaymentStatus.error ∧
    (pay { merchantValid := true, isConnected := true, connectOutcome := .ok (),
           walletAvailable := true,
           submitOutcome := .err { name := "Error", message := "insufficient funds for rent" },
           now := 0 }
         { amount := 1, currency := .SOL, reference := none } initState).state.error
        = some { code := "INSUFFICIENT_BALANCE",
                 message := "Insufficient balance for this payment",
                 recoverable := false } := by
  have h := (pay_submit_error_classification
    { merchantValid := true, isConnected := true, connectOutcome := .ok (),
      walletAvailable := true,
      submitOutcome := .err { name := "Error", message := "insufficient funds for rent" },
      now := 0 }
    { amount := 1, currency := .SOL, reference := none } initState
    { name := "Error", message := "insufficient funds for rent" }
    (by norm_num) rfl (Or.inl rfl) rfl rfl).2 (by decide)
  exact ⟨h.1, h.2.1 (by decide)⟩

/-- C7 counterexample: the validator does not give the non-numeric and
non-positive cases distinct codes, and a non-finite parse does not fail
as not-a-number: the strings abc and -1 produce the identical
amount-must-be-greater-than-0 outcome, and Infinity falls into the
amount-too-large branch. -/
theorem validateAmount_codes_counterexample :
    validateAmount "Infinity" = some "Amount too large (max 1000 SOL for safety)" ∧
    validateAmount "abc" = some "Amount must be greater than 0" ∧
    validateAmount "-1" = some "Amount must be greater than 0" ∧
    validateAmount "abc" = validateAmount "-1" := by
  refine ⟨?_, ?_, ?_, ?_⟩ <;>
    simp +decide [validateAmount, parseFloat, parseUnsignedDecimal, applyExponent,
      parseExponent, parseExponentTail, digitsToNat, digitVal, jsTrimIsEmpty,
      JsNum.jsIsNaN, JsNum.leZero, JsNum.gtThousand]

/-- C7 amended: validateAmount fails with the required-field message on
blank input; with the single shared amount-must-be-greater-than-0
message both when the input parses to NaN and when the parsed value
(finite or negative infinity) is not positive; with the
amount-too-large message when the parsed value exceeds 1000, including
the non-finite positive Infinity; and succeeds, signalling no error
message, exactly on finite parses in the half-open interval from 0
exclusive to 1000 inclusive. -/
theorem validateAmount_cases (s : String) (q : ℚ) :
    (jsTrimIsEmpty s = true → validateAmount s = some "Amount is required") ∧
    (jsTrimIsEmpty s = false → parseFloat s = .nan →
        validateAmount s = some "Amount must be greater than 0") ∧
    (parseFloat s = .num q → q ≤ 0 →
        validateAmount s = some "Amount must be greater than 0") ∧
    (parseFloat s = .inf true →
        validateAmount s = some "Amount must be greater than 0") ∧
    (parseFloat s = .num q → 1000 < q →
        validateAmount s = some "Amount too large (max 1000 SOL for safety)") ∧
    (parseFloat s = .inf false →
        validateAmount s = some "Amount too large (max 1000 SOL for safety)") ∧
    (parseFloat s = .num q → 0 < q → q ≤ 1000 → validateAmount s = none) := by
  refine ⟨?_, ?_, ?_, ?_, ?_, ?_, ?_⟩
  · intro hb
    simp [validateAmount, hb]
  · intro hb hpf
    simp [validateAmount, hb, hpf, JsNum.jsIsNaN]
  · intro hpf hq
    have hb := not_blank_of_parseFloat_ne_nan s (by simp [hpf])
    simp [validateAmount, hb, hpf, JsNum.jsIsNaN, JsNum.leZero, hq]
  · intro hpf
    have hb := not_blank_of_parseFloat_ne_nan s (by simp [hpf])
    simp [validateAmount, hb, hpf, JsNum.jsIsNaN, JsNum.leZero]
  · intro hpf hq
    have hb := not_blank_of_parseFloat_ne_nan s (by simp [hpf])
    simp [validateAmount, hb, hpf, JsNum.jsIsNaN, JsNum.leZero, JsNum.gtThousand,
      not_le.mpr (lt_trans (by norm_num : (0:ℚ) < 1000) hq), hq]
  · intro hpf
    have hb := not_blank_of_parseFloat_ne_nan s (by simp [hpf])
    simp [validateAmount, hb, hpf, JsNum.jsIsNaN, JsNum.leZero, JsNum.gtThousand]
  · intro hpf h0 h1000
    have hb := not_blank_of_parseFloat_ne_nan s (by simp [hpf])
    simp [validateAmount, hb, hpf, JsNum.jsIsNaN, JsNum.leZero, JsNum.gtThousand,
      not_le.mpr h0, not_lt.mpr h1000]

/-- Witness for the C7 amended theorem at the spec fixtures: blank,
non-numeric, negative, too large, in range, and both infinities. -/
theorem validateAmount_cases_witness :
    validateAmount "" = some "Amount is required" ∧
    validateAmount "abc" = some "Amount must be greater than 0" ∧
    validateAmount "-1" = some "Amount must be greater than 0" ∧
    validateAmount "-Infinity" = some "Amount must be greater than 0" ∧
    validateAmount "1500" = some "Amount too large (max 1000 SOL for safety)" ∧
    validateAmount "Infinity" = some "Amount too large (max 1000 SOL for safety)" ∧
    validateAmount "0.05" = none := by
  have pf1 : parseFloat "abc" = JsNum.nan := by
    simp +decide [parseFloat, parseUnsignedDecimal]
  have pf2 : parseFloat "-1" = JsNum.num (-1) := by
    simp +decide [parseFloat, parseUnsignedDecimal, applyExponent, parseExponent,
      parseExponentTail, digitsToNat, digitVal]
  have pf3 : parseFloat "-Infinity" = JsNum.inf true := by
    simp +decide [parseFloat, parseUnsignedDecimal]
  have pf4 : parseFloat "1500" = JsNum.num 1500 := by
    simp +decide [parseFloat, parseUnsignedDecimal, applyExponent, parseExponent,
      parseExponentTail, digitsToNat, digitVal]
  have pf5 : parseFloat "Infinity" = JsNum.inf false := by
    simp +decide [parseFloat, parseUnsignedDecimal]
  have pf6 : parseFloat "0.05" = JsNum.num (1/20) := by
    simp +decide [parseFloat, parseUnsignedDecimal, applyExponent, parseExponent,
      parseExponentTail, digitsToNat, digitVal]
    norm_num
  refine ⟨(validateAmount_cases "" 0).1 (by decide),
          (validateAmount_cases "abc" 0).2.1 (by decide) pf1,
          (validateAmount_cases "-1" (-1)).2.2.1 pf2 (by norm_num),
          (validateAmount_cases "-Infinity" 0).2.2.2.1 pf3,
          (validateAmount_cases "1500" 1500).2.2.2.2.1 pf4 (by norm_num),
          (validateAmount_cases "Infinity" 0).2.2.2.2.2.1 pf5,
          (validateAmount_cases "0.05" (1/20)).2.2.2.2.2.2 pf6 (by norm_num) (by norm_num)⟩

/-- hasKey distributes over a guarded parameter append. -/
lemma hasKey_appendIf (b : Bool) (kv : String × String) (l : List (String × String))
    (k : String) :
    hasKey (appendIf b kv l) k = (hasKey l k || (b && (kv.1 == k))) := by
  cases b <;> simp [appendIf, hasKey, List.any_append]

/-- The assembled parameter list carries amount exactly when the amount
argument is defined and strictly positive. -/
lemma buildParams_hasKey_amount (p : SolanaPayParams) :
    hasKey (buildParams p) "amount" = true ↔ ∃ a, p.amount = some a ∧ 0 < a := by
  have hred : hasKey (buildParams p) "amount" =
      hasKey (match p.amount with
              | some a => if 0 < a then [("amount", ratToString a)] else []
              | none => []) "amount" := by
    simp +decide [buildParams, hasKey_appendIf]
  rw [hred]
  rcases hma : p.amount with _ | a
  · simp [hasKey]
  · by_cases hpos : 0 < a
    · simp only [hpos, if_true]
      constructor
      · intro _; exact ⟨a, rfl, hpos⟩
      · intro _; simp [hasKey]
    · simp only [hpos, if_false]
      constructor
      · intro h; simp [hasKey] at h
      · rintro ⟨a2, ha2, hpos2⟩
        rw [Option.some.injEq] at ha2
        exact absurd (ha2 ▸ hpos2) hpos

/-- The assembled parameter list carries spl-token exactly when the
currency argument is USDC. -/
lemma buildParams_hasKey_spl (p : SolanaPayParams) :
    hasKey (buildParams p) "spl-token" = true ↔ p.currency = some PaymentCurrency.USDC := by
  have hbase : ∀ l, hasKey l "spl-token" = false →
      hasKey (appendIf (p.currency.getD .SOL = .USDC) ("spl-token", USDC_MINT_DEVNET) l)
          "spl-token"
        = decide (p.currency.getD .SOL = .USDC) := by
    intro l hl
    simp [hasKey_appendIf, hl]
  have hamt : hasKey (match p.amount with
      | some a => if 0 < a then [("amount", ratToString a)] else []
      | none => []) "spl-token" = false := by
    rcases p.amount with _ | a
    · rfl
    · by_cases hpos : 0 < a <;> simp +decide [hpos, hasKey]
  have hred : hasKey (buildParams p) "spl-token" =
      decide (p.currency.getD .SOL = .USDC) := by
    simp +decide [buildParams, hasKey_appendIf, hamt]
  rw [hred]
  rcases p.currency with _ | c
  · simp
  · cases c <;> simp

/-- C9: createSolanaPayUrl throws exactly when the recipient string
fails public-key parsing, with the Invalid-recipient message; a
returned URL carries the amount query parameter exactly when the amount
argument is defined and strictly positive, and the spl-token parameter
exactly when the currency argument is USDC. -/
theorem createSolanaPayUrl_spec (isValidPubkey : String → Bool) (p : SolanaPayParams) :
    ((∃ u, createSolanaPayUrl isValidPubkey p = Except.ok u) ↔
        isValidPubkey p.recipient = true) ∧
    (isValidPubkey p.recipient = false →
        createSolanaPayUrl isValidPubkey p = Except.error "Invalid recipient address") ∧
    (∀ u, createSolanaPayUrl isValidPubkey p = Except.ok u →
        (u.hasParam "amount" = true ↔ ∃ a, p.amount = some a ∧ 0 < a) ∧
        (u.hasParam "spl-token" = true ↔ p.currency = some PaymentCurrency.USDC)) := by
  by_cases ho : isValidPubkey p.recipient
  · refine ⟨by simp [createSolanaPayUrl, ho], by simp [ho], ?_⟩
    intro u hu
    simp only [createSolanaPayUrl, ho, if_true, Except.ok.injEq] at hu
    subst hu
    exact ⟨buildParams_hasKey_amount p, buildParams_hasKey_spl p⟩
  · refine ⟨by simp [createSolanaPayUrl, ho], fun _ => by simp [createSolanaPayUrl, ho], ?_⟩
    intro u hu
    simp [createSolanaPayUrl, ho] at hu

/-- Witness for C9: an all-accepting parser with amount 1 and currency
USDC yields a URL carrying both the amount and the spl-token
parameters. -/
theorem createSolanaPayUrl_spec_witness :
    (SolanaPayUrl.hasParam
        { recipient := "RECIPIENT",
          params := buildParams
            { recipient := "RECIPIENT", amount := some 1,
              currency := some PaymentCurrency.USDC, label := none,
              message := none, memo := none, reference := none } }
        "amount") = true ∧
    (SolanaPayUrl.hasParam
        { recipient := "RECIPIENT",
          params := buildParams
            { recipient := "RECIPIENT", amount := some 1,
              currency := some PaymentCurrency.USDC, label := none,
              message := none, memo := none, reference := none } }
        "spl-token") = true := by
  have h := (createSolanaPayUrl_spec (fun _ => true)
    { recipient := "RECIPIENT", amount := some 1,
      currency := some PaymentCurrency.USDC, label := none,
      message := none, memo := none, reference := none }).2.2
    { recipient := "RECIPIENT",
      params := buildParams
        { recipient := "RECIPIENT", amount := some 1,
          currency := some PaymentCurrency.USDC, label := none,
          message := none, memo := none, reference := none } }
    rfl
  exact ⟨h.1.mpr ⟨1, rfl, by norm_num⟩, h.2.mpr rfl⟩

/-- A loop whose window contains no early-returning poll runs to the
timeout return. -/
lemma confirmLoop_timeout (polls : ℕ → PollOutcome) (timeout pollInterval : ℕ) :
    ∀ fuel i, (∀ j, i ≤ j → j * pollInterval < timeout → pollStep (polls j) = none) →
      confirmLoop polls timeout pollInterval i fuel = timeoutResult timeout := by
  intro fuel
  induction fuel with
  | zero => intro i _; rfl
  | succ n ih =>
      intro i h
      show confirmLoop polls timeout pollInterval i (n + 1) = timeoutResult timeout
      rw [confirmLoop]
      by_cases hc : i * pollInterval < timeout
      · rw [if_pos hc, h i le_rfl hc]
        exact ih (i + 1) fun j hj hcj => h j (Nat.le_of_succ_le hj) hcj
      · rw [if_neg hc]

/-- An early return with confirmed set comes from a non-null status
value with no transaction error and a confirmed or finalized
confirmation status. -/
lemma confirmStep_confirmed (v : Option SignatureStatusValue)
    (r : ConfirmTransactionResult)
    (hr : confirmStep v = some r) (hc : r.confirmed = true) :
    ∃ sv, v = some sv ∧ sv.err = none ∧
      (sv.confirmationStatus = some ConfirmationStatus.confirmed ∨
       sv.confirmationStatus = some ConfirmationStatus.finalized) := by
  rcases v with _ | sv
  · simp [confirmStep] at hr
  · refine ⟨sv, rfl, ?_⟩
    rcases herr : sv.err with _ | e
    · rcases hcs : sv.confirmationStatus with _ | cs
      · simp [confirmStep, herr, hcs] at hr
      · cases cs
        · simp [confirmStep, herr, hcs] at hr
        · exact ⟨rfl, Or.inl rfl⟩
        · exact ⟨rfl, Or.inr rfl⟩
    · exfalso
      rw [show confirmStep (some sv) =
            some { confirmed := false, confirmations := none,
                   error := some ("Transaction failed: " ++ e), slot := some sv.slot } from
          by simp [confirmStep, herr]] at hr
      rw [Option.some.injEq] at hr
      rw [← hr] at hc
      simp at hc

/-- A confirmed loop result exhibits a confirming poll. -/
lemma confirmLoop_confirmed (polls : ℕ → PollOutcome) (timeout pollInterval : ℕ) :
    ∀ fuel i, (confirmLoop polls timeout pollInterval i fuel).confirmed = true →
      ∃ j sv, polls j = PollOutcome.ret (some sv) ∧ sv.err = none ∧
        (sv.confirmationStatus = some ConfirmationStatus.confirmed ∨
         sv.confirmationStatus = some ConfirmationStatus.finalized) := by
  intro fuel
  induction fuel with
  | zero => intro i h; simp [confirmLoop, timeoutResult] at h
  | succ n ih =>
      intro i h
      rw [confirmLoop] at h
      by_cases hcnd : i * pollInterval < timeout
      · rw [if_pos hcnd] at h
        rcases hps : pollStep (polls i) with _ | r
        · rw [hps] at h
          exact ih (i + 1) h
        · rw [hps] at h
          rcases hpi : polls i with _ | v
          · rw [hpi] at hps; simp [pollStep] at hps
          · rw [hpi] at hps
            obtain ⟨sv, hsv, herr, hcs⟩ := confirmStep_confirmed v r hps h
            exact ⟨i, sv, by rw [hpi, hsv], herr, hcs⟩
      · rw [if_neg hcnd] at h
        simp [timeoutResult] at h

/-- C10: confirmTransaction is total over every RPC behaviour, including
a getSignatureStatus that throws on every poll, because the catch
branch only continues the loop; when no poll in the window returns
early, the loop expires into exactly the timeout result with confirmed
false, null confirmations and slot, and the timeout stated in
milliseconds; and a confirmed result only arises from a poll whose
status value carries no transaction error and reports a confirmed or
finalized confirmation status. -/
theorem confirmTransaction_spec (polls : ℕ → PollOutcome) (timeout pollInterval : ℕ) :
    ((∀ i, i * pollInterval < timeout → pollStep (polls i) = none) →
        confirmTransaction polls timeout pollInterval =
          { confirmed := false, confirmations := none,
            error := some ("Transaction confirmation timeout after " ++
              toString timeout ++ "ms"),
            slot := none }) ∧
    ((confirmTransaction polls timeout pollInterval).confirmed = true →
        ∃ i sv, polls i = PollOutcome.ret (some sv) ∧ sv.err = none ∧
          (sv.confirmationStatus = some ConfirmationStatus.confirmed ∨
           sv.confirmationStatus = some ConfirmationStatus.finalized)) := by
  constructor
  · intro h
    exact confirmLoop_timeout polls timeout pollInterval _ 0 fun j _ => h j
  · intro h
    exact confirmLoop_confirmed polls timeout pollInterval _ 0 h

/-- Witness for C10: an always-throwing RPC runs to the 3000 ms timeout
result, and an immediately-confirmed status yields a confirming poll. -/
theorem confirmTransaction_spec_witness :
    confirmTransaction throwingPolls 3000 1000 =
      { confirmed := false, confirmations := none,
        error := some "Transaction confirmation timeout after 3000ms", slot := none } ∧
    ∃ i sv, confirmingPolls i = PollOutcome.ret (some sv) ∧
      sv.err = none ∧
      (sv.confirmationStatus = some ConfirmationStatus.confirmed ∨
       sv.confirmationStatus = some ConfirmationStatus.finalized) := by
  constructor
  · have h := (confirmTransaction_spec throwingPolls 3000 1000).1 (fun i _ => rfl)
    simpa using h
  · exact (confirmTransaction_spec confirmingPolls 3000 1000).2 rfl

end Lazorkit
